import Mathlib

/-!
Verification of the Iceberg interface protocol code (deposit / swap / withdraw
client flows) against its natural-language specification.

The JavaScript/TypeScript sources are shallowly embedded: big integers become
`Nat` (with explicit reductions modulo powers of two where the code reduces),
byte strings become `List Nat`, fallible flows become `Except`, and the
on-chain / HTTP side effects of the orchestration functions are recorded as
explicit action traces.  `keccak256` is implemented in full (Keccak-f[1600],
rate 1088, Keccak padding) because several derivations in the code depend on
concrete keccak values.  The Poseidon hashes (`poseidon1`, `poseidon2` from
poseidon-lite / circomlibjs) are external library primitives and are passed as
explicit function parameters `H1`, `H2`.
-/

namespace Iceberg

set_option maxRecDepth 100000

/-- One 64-bit left rotation on naturals, result reduced modulo `2 ^ 64`. -/
def rotl64 (v n : Nat) : Nat :=
  let m := n % 64
  ((v <<< m) ||| (v >>> (64 - m))) % 18446744073709551616

/-- The 24 Keccak round constants (FIPS 202), written in decimal. -/
def keccakRC : List Nat :=
  [1, 32898, 9223372036854808714, 9223372039002292224, 32907, 2147483649,
   9223372039002292353, 9223372036854808585, 138, 136, 2147516425, 2147483658,
   2147516555, 9223372036854775947, 9223372036854808713, 9223372036854808579,
   9223372036854808578, 9223372036854775936, 32778, 9223372039002259466,
   9223372039002292353, 9223372036854808704, 2147483649, 9223372039002292232]

/-- Keccak rho rotation offsets for lane `(x, y)`, indexed by `x + 5 * y`,
generated by the FIPS 202 recurrence: starting from lane `(1, 0)`, step `t`
assigns offset `(t + 1)(t + 2) / 2 mod 64` and moves to `(y, (2x + 3y) % 5)`;
lane `(0, 0)` keeps offset `0`. -/
def keccakRot : List Nat :=
  ((List.range 24).foldl
    (fun st t =>
      let x := st.2.1
      let y := st.2.2
      (st.1.set (x + 5 * y) ((t + 1) * (t + 2) / 2 % 64), (y, (2 * x + 3 * y) % 5)))
    (List.replicate 25 0, (1, 0))).1

/-- Lane `(x, y)` of a 25-lane Keccak state. -/
def lane (A : List Nat) (x y : Nat) : Nat := A.getD (x + 5 * y) 0

/-- Theta step: column parity. -/
def thetaC (A : List Nat) (x : Nat) : Nat :=
  lane A x 0 ^^^ lane A x 1 ^^^ lane A x 2 ^^^ lane A x 3 ^^^ lane A x 4

/-- Theta step: column mixing term. -/
def thetaD (A : List Nat) (x : Nat) : Nat :=
  thetaC A ((x + 4) % 5) ^^^ rotl64 (thetaC A ((x + 1) % 5)) 1

/-- Theta step of Keccak-f. -/
def theta (A : List Nat) : List Nat :=
  (List.range 25).map (fun i => A.getD i 0 ^^^ thetaD A (i % 5))

/-- Combined rho and pi steps of Keccak-f: the destination lane `(xt, yt)`
receives the rotated source lane `(xt + 3 * yt, xt)`. -/
def rhoPi (A : List Nat) : List Nat :=
  (List.range 25).map (fun i =>
    let xt := i % 5
    let yt := i / 5
    let xs := (xt + 3 * yt) % 5
    let ys := xt
    rotl64 (lane A xs ys) (keccakRot.getD (xs + 5 * ys) 0))

/-- Chi step of Keccak-f; complement is XOR with the all-ones 64-bit word. -/
def chi (A : List Nat) : List Nat :=
  (List.range 25).map (fun i =>
    let x := i % 5
    let y := i / 5
    lane A x y ^^^
      ((lane A ((x + 1) % 5) y ^^^ 18446744073709551615) &&& lane A ((x + 2) % 5) y))

/-- The full Keccak-f[1600] permutation: 24 rounds of theta, rho/pi, chi and
iota (the round constant XORed into lane `(0, 0)`). -/
def keccakF (A : List Nat) : List Nat :=
  keccakRC.foldl (fun S rc =>
    let T := chi (rhoPi (theta S))
    (T.getD 0 0 ^^^ rc) :: T.drop 1) A

/-- Little-endian interpretation of up to eight bytes as one 64-bit lane. -/
def bytesToLane (bs : List Nat) : Nat := bs.foldr (fun b acc => acc * 256 + b) 0

/-- Absorb one 136-byte block into the state and permute. -/
def absorbBlock (A block : List Nat) : List Nat :=
  keccakF ((List.range 25).map (fun i =>
    A.getD i 0 ^^^ bytesToLane ((block.drop (8 * i)).take 8)))

/-- Absorb `n` consecutive 136-byte blocks of a padded message. -/
def keccakAbsorb : Nat → List Nat → List Nat → List Nat
  | 0, A, _ => A
  | n + 1, A, padded => keccakAbsorb n (absorbBlock A (padded.take 136)) (padded.drop 136)

/-- Keccak multi-rate padding for rate 136: append `0x01`, zero-fill to a
multiple of 136 bytes, and OR `0x80` into the final byte. -/
def pad101 (msg : List Nat) : List Nat :=
  let m := msg ++ [1] ++ List.replicate ((136 - (msg.length + 1) % 136) % 136) 0
  m.dropLast ++ [m.getLastD 0 ||| 128]

/-- Keccak-256 of a byte sequence, as the big-endian value of the 32-byte
digest (the value `BigInt(ethers.utils.keccak256(bytes))` computes). -/
def keccak256 (msg : List Nat) : Nat :=
  let padded := pad101 msg
  let A := keccakAbsorb (padded.length / 136) (List.replicate 25 0) padded
  let outBytes := ((List.range 4).map (fun i =>
    (List.range 8).map (fun k => (A.getD i 0 >>> (8 * k)) % 256))).flatten
  outBytes.foldl (fun acc b => acc * 256 + b) 0

/-- UTF-8 encoding of one character. -/
def utf8Char (c : Char) : List Nat :=
  let n := c.toNat
  if n < 128 then [n]
  else if n < 2048 then [192 + n / 64, 128 + n % 64]
  else if n < 65536 then [224 + n / 4096, 128 + n / 64 % 64, 128 + n % 64]
  else [240 + n / 262144, 128 + n / 4096 % 64, 128 + n / 64 % 64, 128 + n % 64]

/-- UTF-8 encoding of a string (`ethers.utils.toUtf8Bytes`). -/
def utf8Bytes (s : String) : List Nat := (s.data.map utf8Char).flatten

/-- `BigInt(ethers.utils.keccak256(ethers.utils.toUtf8Bytes(s)))`. -/
def keccakOfString (s : String) : Nat := keccak256 (utf8Bytes s)

/-- Character-level string reversal: `s.split('').reverse().join('')`. -/
def reverseString (s : String) : String := String.mk s.data.reverse

/-- `secret.match(/[^0-9]/)` is truthy: some character is not a decimal digit. -/
def hasNonDigit (s : String) : Bool := s.data.any (fun c => !c.isDigit)

/-- `BigInt(s)` on a string of decimal digits (also `BigInt('') = 0`). -/
def parseDecimal (s : String) : Nat := s.data.foldl (fun acc c => 10 * acc + (c.toNat - 48)) 0

/-! ## Commitment and nullifier derivations

`depositUtils.js`, primary `executeDeposit` (lines 91-121): the user passphrase
(called `secret` there) is reversed character-wise; if it contains a non-digit
both values are keccak256 hashes of the UTF-8 bytes, otherwise both are read
as decimal integers. -/

/-- `secretBigInt` computed by the primary `executeDeposit`. -/
def depositSecretBigInt (secret : String) : Nat :=
  if hasNonDigit secret then keccakOfString secret else parseDecimal secret

/-- `nullifierBigInt` computed by the primary `executeDeposit`
(from `reversedSecret = secret.split('').reverse().join('')`). -/
def depositNullifierBigInt (secret : String) : Nat :=
  if hasNonDigit secret then keccakOfString (reverseString secret)
  else parseDecimal (reverseString secret)

/-- `commitment = poseidon2([nullifierBigInt, secretBigInt])` of the primary
`executeDeposit`; the Poseidon instance is the explicit parameter `H2`. -/
def depositCommitment (H2 : Nat → Nat → Nat) (secret : String) : Nat :=
  H2 (depositNullifierBigInt secret) (depositSecretBigInt secret)

/-- The §4.2 spec-side derivation of the secret, written from the claim text:
a purely numeric passphrase is its own integer value, otherwise the keccak256
hash of the passphrase bytes. -/
def specSecret (p : String) : Nat :=
  if p.data.all Char.isDigit then parseDecimal p else keccakOfString p

/-- The §4.2 spec-side derivation of the nullifier, written from the claim
text: the integer value (or keccak256 hash) of the character-reversed
passphrase. -/
def specNullifier (p : String) : Nat :=
  if p.data.all Char.isDigit then parseDecimal (reverseString p)
  else keccakOfString (reverseString p)

/-! `depositUtils.js`, second (simulation) `executeDeposit` (lines 403-436):
every passphrase is keccak256-hashed, `slice(0, 64)` on the 66-character hex
string keeps `0x` plus 62 hex digits, i.e. drops the lowest byte, and the
commitment is keccak256 of the two `hexZeroPad`ded 32-byte values. -/

/-- `secretBN` of the simulation `executeDeposit`: keccak256 of the passphrase
with the last byte dropped (`secretHash.slice(0, 64)`). -/
def mockDepositSecretBN (secret : String) : Nat := keccakOfString secret / 256

/-- `nullifierBN` of the simulation `executeDeposit`. -/
def mockDepositNullifierBN (secret : String) : Nat :=
  keccakOfString (reverseString secret) / 256

/-- Big-endian encoding of `v % 256 ^ w` on exactly `w` bytes
(`ethers.utils.hexZeroPad` to a fixed width). -/
def beBytes : Nat → Nat → List Nat
  | 0, _ => []
  | w + 1, v => beBytes w (v / 256) ++ [v % 256]

/-- `commitment` of the simulation `executeDeposit`:
`keccak256(concat(hexZeroPad(nullifierBN, 32), hexZeroPad(secretBN, 32)))`. -/
def mockDepositCommitment (secret : String) : Nat :=
  keccak256 (beBytes 32 (mockDepositNullifierBN secret) ++
    beBytes 32 (mockDepositSecretBN secret))

/-- `nullifier` computed by `executeIcebergSwap` (`icebergSwap.js` line 58):
unconditionally `BigInt(keccak256(toUtf8Bytes(reversedSecret)))`, with no
numeric-passphrase branch. -/
def swapNullifier (secret : String) : Nat := keccakOfString (reverseString secret)

/-- `nullifierHash = poseidon1([nullifier])` of `executeIcebergSwap`; the
Poseidon instance is the explicit parameter `H1`. -/
def swapNullifierHash (H1 : Nat → Nat) (secret : String) : Nat :=
  H1 (swapNullifier secret)

/-! ## Hex encoding of bytes32 values (claim C10) -/

/-- Lowercase hexadecimal digit for `n < 16`. -/
def hexDigitChar (n : Nat) : Char :=
  if n < 10 then Char.ofNat (48 + n) else Char.ofNat (87 + n)

/-- Fuelled most-significant-first hex digit expansion; empty for zero. -/
def hexCharsAux : Nat → Nat → List Char
  | 0, _ => []
  | fuel + 1, v =>
    if v = 0 then [] else hexCharsAux fuel (v / 16) ++ [hexDigitChar (v % 16)]

/-- Minimal hex digit list of `v` (empty for zero); `v` itself is enough fuel
because a `d`-digit value is at least `16 ^ (d - 1) ≥ d`. -/
def hexChars (v : Nat) : List Char := hexCharsAux v v

/-- `BigInt(v).toString(16)`: minimal lowercase hex, `"0"` for zero. -/
def toHexString16 (v : Nat) : String :=
  if v = 0 then "0" else String.mk (hexChars v)

/-- `ethers.BigNumber.from(v).toHexString().slice(2)`: minimal lowercase hex
padded on the left to an even number of digits, `"00"` for zero. -/
def toHexStringEthers (v : Nat) : String :=
  if v = 0 then "00"
  else if (hexChars v).length % 2 = 1 then String.mk ('0' :: hexChars v)
  else String.mk (hexChars v)

/-- `s.padStart(64, '0')`: left-pad with zeros up to length 64 (a longer
string is returned unchanged, since `64 - len = 0` on naturals). -/
def padStart64Zero (s : String) : String :=
  String.mk (List.replicate (64 - s.length) '0' ++ s.data)

/-- `"0x" + BigNumber.from(x).toHexString().slice(2).padStart(64, '0')`: the
commitment encoding of `executeDeposit` (line 122) and the nullifier-hash
encoding of `executeIcebergSwap` (line 62). -/
def commitmentHex (v : Nat) : String := "0x" ++ padStart64Zero (toHexStringEthers v)

/-- `"0x" + v.toString(16).padStart(64, '0')`: the nullifier-hash encoding of
`executeIcebergWithdrawUsingProof` (line 747) and the `nullifierHex` /
`secretHex` fields of the deposit data (lines 244-245). -/
def bytes32Hex (v : Nat) : String := "0x" ++ padStart64Zero (toHexString16 v)

/-- A lowercase hexadecimal digit character. -/
def isHexDigitChar (c : Char) : Bool :=
  (48 ≤ c.toNat && c.toNat ≤ 57) || (97 ≤ c.toNat && c.toNat ≤ 102)

/-- Numeric value of one lowercase hex digit character. -/
def hexCharVal (c : Char) : Nat :=
  if c.toNat ≤ 57 then c.toNat - 48 else c.toNat - 87

/-- Big-endian value of a list of hex digit characters. -/
def natOfHexChars (l : List Char) : Nat :=
  l.foldl (fun acc c => 16 * acc + hexCharVal c) 0

/-! ## Solidity packed hashing (claim C7) -/

/-- The Solidity types appearing in the signed swap-authorization message. -/
inductive SolidityType
  | uint256
  | bytes32
  | address
deriving DecidableEq, Repr

/-- `ethers.utils.solidityPack` for one (type, value) pair: `uint256` and
`bytes32` pack to 32 big-endian bytes, `address` to 20. -/
def solidityPackOne : SolidityType → Nat → List Nat
  | .uint256, v => beBytes 32 v
  | .bytes32, v => beBytes 32 v
  | .address, v => beBytes 20 v

/-- `ethers.utils.solidityPack`: concatenation of the packed values. -/
def solidityPack (args : List (SolidityType × Nat)) : List Nat :=
  (args.map fun a => solidityPackOne a.1 a.2).flatten

/-- `ethers.utils.solidityKeccak256`. -/
def solidityKeccak256 (args : List (SolidityType × Nat)) : Nat :=
  keccak256 (solidityPack args)

/-- `messageToSign` of `executeIcebergSwap` (`icebergSwap.js` lines 134-137):
`solidityKeccak256(['uint256','uint256','bytes32','address','address'],
[chainIndex, swapConfigId, nullifierHashHex, tokenOut, userAddress])`. -/
def swapMessageToSign (chainId swapConfigId nullifierHashValue tokenOut userAddress : Nat) : Nat :=
  solidityKeccak256
    [(.uint256, chainId), (.uint256, swapConfigId), (.bytes32, nullifierHashValue),
     (.address, tokenOut), (.address, userAddress)]

/-- The ABI-packed 5-tuple written from the claim text: chainId and
swapConfigId as uint256, the nullifier hash as bytes32, then the two
addresses, in exactly that order. -/
def abiPacked5 (chainId swapConfigId nullifierHashValue tokenOut userAddress : Nat) : List Nat :=
  beBytes 32 chainId ++ beBytes 32 swapConfigId ++ beBytes 32 nullifierHashValue ++
    beBytes 20 tokenOut ++ beBytes 20 userAddress

/-- Big-endian value of a byte list (inverse of `beBytes` on its range). -/
def natOfBytes (l : List Nat) : Nat := l.foldl (fun acc b => 256 * acc + b) 0

/-! ## Groth16 proof formatting (claim C6) -/

/-- A snarkjs Groth16 proof object; `pi_a`, `pi_b`, `pi_c` are the (projective)
coordinate arrays exactly as produced by the prover. -/
structure SnarkjsProof (α : Type) where
  pi_a : List α
  pi_b : List (List α)
  pi_c : List α

/-- The shape returned by `formatProofForContract`. -/
structure FormattedProof (α : Type) where
  a : α × α
  b : (α × α) × (α × α)
  c : α × α

/-- `formatProofForContract` (`zkProof.ts` lines 207-213 and
`zkProofBrowser.js` lines 108-114): keeps `pi_a[0..1]` and `pi_c[0..1]` and
swaps the two coordinates inside each `pi_b` pair.  Out-of-range accesses
return the default `d` (they do not occur on well-formed proofs). -/
def formatProofForContract {α : Type} (d : α) (p : SnarkjsProof α) : FormattedProof α :=
  { a := (p.pi_a.getD 0 d, p.pi_a.getD 1 d)
    b := (((p.pi_b.getD 0 []).getD 1 d, (p.pi_b.getD 0 []).getD 0 d),
          ((p.pi_b.getD 1 []).getD 1 d, (p.pi_b.getD 1 []).getD 0 d))
    c := (p.pi_c.getD 0 d, p.pi_c.getD 1 d) }

/-- The `contractProof` flattening (`generateProof.ts` lines 211-224):
`[a[0], a[1], b[0][0], b[0][1], b[1][0], b[1][1], c[0], c[1]]` of the
formatted proof. -/
def contractProofArray {α : Type} (f : FormattedProof α) : List α :=
  [f.a.1, f.a.2, f.b.1.1, f.b.1.2, f.b.2.1, f.b.2.2, f.c.1, f.c.2]

/-! ## Proof verification boundary (claim C8) -/

/-- `ZKProofGenerator.verifyProof` (`zkProof.ts` lines 168-202): the snarkjs
CLI run (and the surrounding file I/O) either succeeds or throws; the
try/catch converts success to `true` and any exception to `false`. -/
def verifyProofNode (run : Except String Unit) : Bool :=
  match run with
  | .ok _ => true
  | .error _ => false

/-- `ZKProofGeneratorBrowser.verifyProof` (`zkProofBrowser.js` lines 80-103):
fetch the verification key (may throw), run `snarkjs.groth16.verify` (may
throw, else returns a boolean); the try/catch converts any exception to
`false` and otherwise returns the verifier's boolean. -/
def verifyProofBrowser {κ σ π : Type} (fetchVk : Except String κ)
    (groth16Verify : κ → σ → π → Except String Bool) (publicSignals : σ) (proof : π) : Bool :=
  match fetchVk with
  | .error _ => false
  | .ok vk =>
    match groth16Verify vk publicSignals proof with
    | .error _ => false
    | .ok accepted => accepted

/-! ## Proof-element range formatting (claim C9) -/

/-- `maxUint256 = BigInt("0xff..ff")` of `executeIcebergWithdrawUsingProof`
(`icebergWithdraw.js` line 801): this is `2 ^ 256 - 1`. -/
def maxUint256 : Int := 2 ^ 256 - 1

/-- The per-element formatting of `executeIcebergWithdrawUsingProof`
(lines 803-820): values above `maxUint256` are reduced modulo `maxUint256`
(not modulo `2 ^ 256`), then negative values are replaced by zero. -/
def formatProofElement (e : Int) : Int :=
  let v := if maxUint256 < e then e % maxUint256 else e
  if v < 0 then 0 else v

/-- `formattedContractProof = contractProof.map(...)`. -/
def formatContractProof (p : List Int) : List Int := p.map formatProofElement

/-! ## Circuit witness construction (claim C3) -/

/-- The circuit input record (`CircuitInput` in `zkProof.ts`): public inputs
`merkleRoot`, `nullifierHash`, `recipient` and private inputs `nullifier`,
`secret`, `pathElements`, `pathIndices`, all as decimal/hex strings as the
code builds them. -/
structure CircuitInput where
  merkleRoot : String
  nullifierHash : String
  recipient : String
  nullifier : String
  secret : String
  pathElements : List String
  pathIndices : List Nat
deriving DecidableEq, Repr

/-- The fixed placeholder root of the browser `generateProof`
(`mockMerkleRoot` in `src/unnamed/part_002`, line 87). -/
def mockMerkleRoot : String :=
  "0x1234567890abcdef1234567890abcdef1234567890abcdef1234567890abcdef"

/-- The `(nullifierBigInt, secretBigInt)` pair of the browser `generateProof`
(`part_002` lines 47-62): for a non-numeric secret both values are re-derived
by keccak256 from the secret alone (the passed `nullifier` is ignored),
otherwise both arguments are parsed as decimal integers. -/
def browserProofPair (nullifierArg secretArg : String) : Nat × Nat :=
  if hasNonDigit secretArg then
    (keccakOfString (reverseString secretArg), keccakOfString secretArg)
  else (parseDecimal nullifierArg, parseDecimal secretArg)

/-- The circuit input built by the browser `generateProof` (`part_002` lines
82-100): the Merkle root is the fixed `mockMerkleRoot` constant and the path
is five `"0"` elements with five `0` indices, independent of any Ledger
state; `H1` is the Poseidon nullifier hash. -/
def browserCircuitInput (H1 : Nat → Nat) (nullifierArg secretArg : String)
    (recipient : Nat) : CircuitInput :=
  { merkleRoot := mockMerkleRoot
    nullifierHash := toString (H1 (browserProofPair nullifierArg secretArg).1)
    recipient := toString recipient
    nullifier := toString (browserProofPair nullifierArg secretArg).1
    secret := toString (browserProofPair nullifierArg secretArg).2
    pathElements := List.replicate 5 "0"
    pathIndices := List.replicate 5 0 }

/-- The Ledger data the Node `generateProof.ts` script reads on-chain: the
current Merkle root (`pool.getMerkleRoot()`) and the authenticated path
`pool.getMerkleProof(leafIndex)`. -/
structure LedgerView where
  merkleRoot : Nat
  merkleProof : Nat → List Nat × List Bool

/-- The circuit input built by `generateProof.ts` (lines 159-188): the public
`merkleRoot` is the root fetched from the Ledger and the path is the fetched
`getMerkleProof(leafIndex)` pair, elements stringified and indices mapped to
`0` / `1`. -/
def tsCircuitInput (H1 : Nat → Nat) (ledger : LedgerView)
    (leafIndex nullifier secret recipient : Nat) : CircuitInput :=
  { merkleRoot := toString ledger.merkleRoot
    nullifierHash := toString (H1 nullifier)
    recipient := toString recipient
    nullifier := toString nullifier
    secret := toString secret
    pathElements := (ledger.merkleProof leafIndex).1.map toString
    pathIndices := (ledger.merkleProof leafIndex).2.map (fun b => if b then 1 else 0) }

/-! ## Withdrawal orchestration traces (claim C4) -/

/-- External actions of the client withdrawal flows that touch the Ledger. -/
inductive WithdrawStep
  | queryGetSwapResult
  | estimateGasWithdraw
  | submitWithdrawTx
deriving DecidableEq, Repr

/-- Environment of a withdrawal attempt: the signer balance, the recorded
swap result for the nullifier hash, and the proof argument. -/
structure WithdrawEnv where
  balance : Nat
  swapTokenOut : Nat
  swapAmount : Nat
  proof : List Int
deriving Repr

/-- `parseEther("0.0002")` in wei. -/
def minBalanceWithdrawV1 : Nat := 200000000000000

/-- `parseEther("0.000001")` in wei. -/
def minBalanceUsingProof : Nat := 1000000000000

/-- The first `executeIcebergWithdraw` (`icebergWithdraw.js` lines 23-208), as
the sequence of Ledger actions performed and the outcome: it queries
`getSwapResult` and throws before any gas estimation or transaction when the
recorded amount is zero. -/
def executeIcebergWithdraw (env : WithdrawEnv) : List WithdrawStep × Except String Unit :=
  if env.balance < minBalanceWithdrawV1 then
    ([], .error "Insufficient balance, at least 0.0002 ETH required for gas fees")
  else if env.swapAmount = 0 then
    ([.queryGetSwapResult],
     .error "No amount available for withdrawal, swap may not be executed or already withdrawn")
  else if env.proof.length ≠ 8 then
    ([.queryGetSwapResult],
     .error "ZK proof format error, must be an array containing 8 elements")
  else
    ([.queryGetSwapResult, .estimateGasWithdraw, .submitWithdrawTx], .ok ())

/-- Environment of `executeIcebergWithdrawUsingProof` (lines 670-908): the
proof may be absent (simulation mode). -/
structure WithdrawProofEnv where
  balance : Nat
  contractProof : Option (List Int)
  swapTokenOut : Nat
  swapAmount : Nat
deriving Repr

/-- The mock amount (`parseEther("0.0002")`) substituted by
`executeIcebergWithdrawUsingProof` when the on-chain swap amount is zero. -/
def mockWithdrawAmount : Nat := 200000000000000

/-- `executeIcebergWithdrawUsingProof` (`icebergWithdraw.js` lines 670-908);
the successful outcome carries the `(tokenOut, amount)` the function reports.
When the recorded swap amount is zero it does NOT throw: it substitutes the
mock pair (ETH, 0.0002 ETH) "for testing" and proceeds to estimate gas and
submit the withdrawal transaction with the formatted proof. -/
def executeIcebergWithdrawUsingProof (env : WithdrawProofEnv) :
    List WithdrawStep × Except String (Nat × Nat) :=
  if env.balance < minBalanceUsingProof then
    ([], .error "Insufficient balance for gas fees")
  else
    match env.contractProof with
    | none => ([], .ok (0, mockWithdrawAmount))
    | some proof =>
      if proof.length ≠ 8 then
        ([], .error "Invalid proof format. Expected array of 8 elements")
      else
        let tokenOut := if env.swapAmount = 0 then 0 else env.swapTokenOut
        let amount := if env.swapAmount = 0 then mockWithdrawAmount else env.swapAmount
        ([.queryGetSwapResult, .estimateGasWithdraw, .submitWithdrawTx],
         .ok (tokenOut, amount))

/-! ## Swap orchestration traces (claim C5) -/

/-- External actions of the client swap flows. -/
inductive SwapAction
  | oneInchSwapRequest
  | requestUserSignature
  | queryNullifierHashUsed
  | queryGetSwapConfig
  | estimateGasExecuteSwap
  | submitExecuteSwapTx
deriving DecidableEq, Repr

/-- Environment of `executeIcebergSwap` (`icebergSwap.js`). -/
structure SwapEnv where
  chainId : Nat
  oneInchOk : Bool
  userSigns : Bool
  operatorKeySet : Bool
  operatorBalance : Nat
  nullifierHashUsed : Bool
deriving Repr

/-- `parseEther("0.00001")` in wei. -/
def operatorMinBalance : Nat := 10000000000000

/-- `executeIcebergSwap` (`icebergSwap.js` lines 29-293) as the sequence of
external actions performed and the outcome, in source order: network check,
1inch swap request, user signature, operator key and balance checks, then the
`nullifierHashUsed` query — whose positive answer throws before the
`getSwapConfig` read, the gas estimation and the `executeSwap` transaction. -/
def executeIcebergSwap (env : SwapEnv) : List SwapAction × Except String Unit :=
  if env.chainId ≠ 42161 ∧ env.chainId ≠ 1 then
    ([], .error "Not on mainnet environment (Ethereum or Arbitrum)")
  else if env.oneInchOk = false then
    ([.oneInchSwapRequest], .error "1inch API error")
  else if env.userSigns = false then
    ([.oneInchSwapRequest, .requestUserSignature],
     .error "User rejected transaction signature")
  else if env.operatorKeySet = false then
    ([.oneInchSwapRequest, .requestUserSignature],
     .error "DEPLOYER_PRIVATE_KEY not found in environment variables")
  else if env.operatorBalance < operatorMinBalance then
    ([.oneInchSwapRequest, .requestUserSignature],
     .error "Operator insufficient balance, at least 0.00001 ETH needed for gas fees")
  else if env.nullifierHashUsed then
    ([.oneInchSwapRequest, .requestUserSignature, .queryNullifierHashUsed],
     .error "NullifierHash already used, cannot repeat swap")
  else
    ([.oneInchSwapRequest, .requestUserSignature, .queryNullifierHashUsed,
      .queryGetSwapConfig, .estimateGasExecuteSwap, .submitExecuteSwapTx], .ok ())

/-- Environment of the `executeSwap.ts` script. -/
structure SwapScriptEnv where
  chainId : Nat
  deployerBalance : Nat
  configMatches : Bool
  nullifierHashUsed : Bool
  oneInchOk : Bool
deriving Repr

/-- `parseEther("0.001")` in wei. -/
def deployerMinBalance : Nat := 1000000000000000

/-- `main` of `executeSwap.ts` (the swap path, lines 100-231) as an action
trace: balance check, on-chain config read and consistency check, then the
`nullifierHashUsed` query — whose positive answer throws before the 1inch
request, the gas estimation and the `executeSwap` transaction. -/
def executeSwapScript (env : SwapScriptEnv) : List SwapAction × Except String Unit :=
  if env.deployerBalance < deployerMinBalance then
    ([], .error "Insufficient balance, at least 0.001 ETH needed for gas fees")
  else if env.configMatches = false then
    ([.queryGetSwapConfig], .error "On-chain config inconsistent with deposit data")
  else if env.nullifierHashUsed then
    ([.queryGetSwapConfig, .queryNullifierHashUsed],
     .error "NullifierHash already used, cannot repeat swap")
  else if env.oneInchOk = false then
    ([.queryGetSwapConfig, .queryNullifierHashUsed, .oneInchSwapRequest],
     .error "1inch API error")
  else
    ([.queryGetSwapConfig, .queryNullifierHashUsed, .oneInchSwapRequest,
      .estimateGasExecuteSwap, .submitExecuteSwapTx], .ok ())

/-! ## Helper lemmas -/

/-- A list has a non-digit character exactly when not all characters are
digits. -/
theorem any_not_isDigit (l : List Char) :
    (l.any fun c => !c.isDigit) = !(l.all Char.isDigit) := by
  induction l with
  | nil => rfl
  | cons a l ih => simp [List.any_cons, List.all_cons, Bool.not_and, ih]

/-- `beBytes w v` always has exactly `w` bytes. -/
theorem beBytes_length : ∀ (w v : Nat), (beBytes w v).length = w := by
  intro w
  induction w with
  | zero => intro v; rfl
  | succ w ih => intro v; simp [beBytes, ih]

theorem natOfBytes_append_singleton (l : List Nat) (b : Nat) :
    natOfBytes (l ++ [b]) = 256 * natOfBytes l + b := by
  simp [natOfBytes, List.foldl_append]

/-- `natOfBytes` recovers the value encoded by `beBytes`. -/
theorem natOfBytes_beBytes : ∀ (w v : Nat), v < 256 ^ w → natOfBytes (beBytes w v) = v := by
  intro w
  induction w with
  | zero =>
    intro v hv
    interval_cases v
    rfl
  | succ w ih =>
    intro v hv
    have hdiv : v / 256 < 256 ^ w := by
      rw [Nat.div_lt_iff_lt_mul (by norm_num)]
      calc v < 256 ^ (w + 1) := hv
        _ = 256 ^ w * 256 := by ring
    simp only [beBytes, natOfBytes_append_singleton, ih _ hdiv]
    omega

/-- `beBytes w` is injective on values below `256 ^ w`. -/
theorem beBytes_inj {w v v' : Nat} (h : v < 256 ^ w) (h' : v' < 256 ^ w)
    (he : beBytes w v = beBytes w v') : v = v' := by
  rw [← natOfBytes_beBytes w v h, ← natOfBytes_beBytes w v' h', he]

/-! ## Claim theorems -/

/-- C3: the witness for the circuit built by the browser-side
`generateProof` does not come from the Ledger at all: its public `merkleRoot`
is the fixed placeholder constant `mockMerkleRoot` and its Merkle path is five
`"0"` elements with five `0` indices, whatever the arguments are; by
contrast the Node script `generateProof.ts` builds the witness from the root
and the authenticated path it fetched from the Ledger. -/
theorem C3_browser_witness_uses_fixed_placeholders :
    (∀ (H1 : Nat → Nat) (n s : String) (r : Nat),
      (browserCircuitInput H1 n s r).merkleRoot = mockMerkleRoot ∧
      (browserCircuitInput H1 n s r).pathElements = List.replicate 5 "0" ∧
      (browserCircuitInput H1 n s r).pathIndices = List.replicate 5 0) ∧
    (∀ (H1 : Nat → Nat) (L : LedgerView) (i n s r : Nat),
      (tsCircuitInput H1 L i n s r).merkleRoot = toString L.merkleRoot ∧
      (tsCircuitInput H1 L i n s r).pathElements = (L.merkleProof i).1.map toString ∧
      (tsCircuitInput H1 L i n s r).pathIndices =
        (L.merkleProof i).2.map (fun b => if b then 1 else 0)) :=
  ⟨fun _ _ _ _ => ⟨rfl, rfl, rfl⟩, fun _ _ _ _ _ _ => ⟨rfl, rfl, rfl⟩⟩

/-- C4: on a nullifier hash whose recorded swap amount is zero, the plain
`executeIcebergWithdraw` fails with an error and performs no gas estimation
and no transaction, but `executeIcebergWithdrawUsingProof` (given a proof and
enough gas balance) substitutes the mock pair (ETH, 0.0002 ETH) and proceeds
to estimate gas and submit the withdrawal transaction, reporting success. -/
theorem C4_zero_amount_withdraw_still_submits :
    executeIcebergWithdraw
        { balance := 1000000000000000000, swapTokenOut := 7, swapAmount := 0,
          proof := [1, 2, 3, 4, 5, 6, 7, 8] } =
      ([WithdrawStep.queryGetSwapResult],
       .error "No amount available for withdrawal, swap may not be executed or already withdrawn") ∧
    executeIcebergWithdrawUsingProof
        { balance := 1000000000000000000, contractProof := some [1, 2, 3, 4, 5, 6, 7, 8],
          swapTokenOut := 7, swapAmount := 0 } =
      ([WithdrawStep.queryGetSwapResult, WithdrawStep.estimateGasWithdraw,
        WithdrawStep.submitWithdrawTx], .ok (0, mockWithdrawAmount)) ∧
    (executeIcebergWithdrawUsingProof
        { balance := 1000000000000000000, contractProof := some [1, 2, 3, 4, 5, 6, 7, 8],
          swapTokenOut := 7, swapAmount := 0 }).1.contains WithdrawStep.submitWithdrawTx = true :=
  ⟨rfl, rfl, rfl⟩

/-- C6: formatting a snarkjs proof for the contract and flattening it yields
exactly `[pi_a[0], pi_a[1], pi_b[0][1], pi_b[0][0], pi_b[1][1], pi_b[1][0],
pi_c[0], pi_c[1]]`: the `a` and `c` coordinates in order, with the two inner
coordinates of each `b` pair swapped relative to the prover output. -/
theorem C6_contract_proof_layout :
    ∀ (α : Type) (d a0 a1 a2 b00 b01 b10 b11 b20 b21 c0 c1 c2 : α),
      contractProofArray (formatProofForContract d
        { pi_a := [a0, a1, a2], pi_b := [[b00, b01], [b10, b11], [b20, b21]],
          pi_c := [c0, c1, c2] }) =
      [a0, a1, b01, b00, b11, b10, c0, c1] :=
  fun _ _ _ _ _ _ _ _ _ _ _ _ _ _ => rfl

/-- C8: both `verifyProof` implementations are total boolean functions of the
outcomes of their effects — an exception anywhere yields `false` rather than
propagating — and they return `true` exactly when the Groth16 verifier
actually accepted. -/
theorem C8_verifyProof_fails_closed :
    (∀ run : Except String Unit, verifyProofNode run = true ↔ ∃ u, run = .ok u) ∧
    (∀ (κ σ π : Type) (fetchVk : Except String κ)
       (groth16Verify : κ → σ → π → Except String Bool) (ps : σ) (pf : π),
      verifyProofBrowser fetchVk groth16Verify ps pf = true ↔
        ∃ vk, fetchVk = .ok vk ∧ groth16Verify vk ps pf = .ok true) := by
  constructor
  · intro run
    cases run <;> simp [verifyProofNode]
  · intro κ σ π f g ps pf
    cases f with
    | error e => simp [verifyProofBrowser]
    | ok vk =>
      cases hg : g vk ps pf with
      | error e => simp [verifyProofBrowser, hg]
      | ok accepted => cases accepted <;> simp [verifyProofBrowser, hg]

/-- C9: every formatted proof element lies in `[0, 2 ^ 256 - 1]`; elements
already in range pass through unchanged, elements above `maxUint256` are
reduced modulo `maxUint256 = 2 ^ 256 - 1` (not modulo `2 ^ 256`), and negative
elements become `0`; `formatContractProof` applies this to every element. -/
theorem C9_proof_element_range (e : Int) :
    (0 ≤ formatProofElement e ∧ formatProofElement e ≤ maxUint256) ∧
    (0 ≤ e → e ≤ maxUint256 → formatProofElement e = e) ∧
    (maxUint256 < e → formatProofElement e = e % maxUint256) ∧
    (e < 0 → formatProofElement e = 0) ∧
    (∀ (p : List Int) (x : Int), x ∈ formatContractProof p →
      0 ≤ x ∧ x ≤ maxUint256) := by
  have hm : (0 : Int) < maxUint256 := by norm_num [maxUint256]
  have key : ∀ y : Int, 0 ≤ formatProofElement y ∧ formatProofElement y ≤ maxUint256 := by
    intro y
    have h0 : 0 ≤ y % maxUint256 := Int.emod_nonneg y (ne_of_gt hm)
    have h1 : y % maxUint256 < maxUint256 := Int.emod_lt_of_pos y hm
    simp only [formatProofElement]
    split_ifs <;> constructor <;> omega
  refine ⟨key e, ?_, ?_, ?_, ?_⟩
  · intro h1 h2
    simp only [formatProofElement]
    split_ifs <;> omega
  · intro h
    have h0 : 0 ≤ e % maxUint256 := Int.emod_nonneg e (ne_of_gt hm)
    simp only [formatProofElement]
    split_ifs <;> omega
  · intro h
    simp only [formatProofElement]
    split_ifs <;> omega
  · intro p x hx
    rcases List.mem_map.mp hx with ⟨y, _, rfl⟩
    exact key y

/-- Witness for C9 at concrete inputs: `3` is unchanged, `2 ^ 256` is reduced
modulo `2 ^ 256 - 1` (to `1`), and `-5` becomes `0`. -/
theorem C9_proof_element_range_witness :
    formatProofElement 3 = 3 ∧
    formatProofElement (2 ^ 256) = (2 ^ 256 : Int) % maxUint256 ∧
    formatProofElement (-5) = 0 :=
  ⟨(C9_proof_element_range 3).2.1 (by norm_num) (by norm_num [maxUint256]),
   (C9_proof_element_range (2 ^ 256)).2.2.1 (by norm_num [maxUint256]),
   (C9_proof_element_range (-5)).2.2.2.1 (by norm_num)⟩

/-- C5: when the Ledger reports the nullifier hash as already used, both swap
clients throw before the gas estimation and before the `executeSwap`
transaction: neither action appears in the trace, the run cannot succeed, and
(when every earlier step succeeds) the error is exactly the already-used
message. -/
theorem C5_already_used_nullifier_blocks_swap :
    (∀ env : SwapEnv, env.nullifierHashUsed = true →
      (executeIcebergSwap env).1.contains SwapAction.estimateGasExecuteSwap = false ∧
      (executeIcebergSwap env).1.contains SwapAction.submitExecuteSwapTx = false ∧
      (∀ u, (executeIcebergSwap env).2 ≠ .ok u) ∧
      (env.oneInchOk = true → env.userSigns = true → env.operatorKeySet = true →
        operatorMinBalance ≤ env.operatorBalance →
        ¬(env.chainId ≠ 42161 ∧ env.chainId ≠ 1) →
        (executeIcebergSwap env).2 =
          .error "NullifierHash already used, cannot repeat swap")) ∧
    (∀ env : SwapScriptEnv, env.nullifierHashUsed = true →
      (executeSwapScript env).1.contains SwapAction.estimateGasExecuteSwap = false ∧
      (executeSwapScript env).1.contains SwapAction.submitExecuteSwapTx = false ∧
      (∀ u, (executeSwapScript env).2 ≠ .ok u) ∧
      (deployerMinBalance ≤ env.deployerBalance → env.configMatches = true →
        (executeSwapScript env).2 =
          .error "NullifierHash already used, cannot repeat swap")) := by
  constructor
  · rintro ⟨cid, oi, us, ok, ob, nu⟩ h
    simp only at h
    subst h
    unfold executeIcebergSwap
    simp only
    split_ifs with h1 h2 h3 h4 h5 <;>
      refine ⟨by decide, by decide, fun u => by simp, ?_⟩ <;>
      intro ho hs hk hb hc
    · exact absurd h1 hc
    · simp [ho] at h2
    · simp [hs] at h3
    · simp [hk] at h4
    · omega
    · rfl
  · rintro ⟨cid, db, cm, nu, oi⟩ h
    simp only at h
    subst h
    unfold executeSwapScript
    simp only
    split_ifs with h1 h2 <;>
      refine ⟨by decide, by decide, fun u => by simp, ?_⟩ <;>
      intro hb hcm
    · omega
    · simp [hcm] at h2
    · rfl

/-- Witness for C5 at a concrete environment where the nullifier hash is
reported used and all other preconditions hold. -/
theorem C5_already_used_nullifier_blocks_swap_witness :
    (executeIcebergSwap
      { chainId := 42161, oneInchOk := true, userSigns := true, operatorKeySet := true,
        operatorBalance := 1000000000000000000, nullifierHashUsed := true }).1.contains
        SwapAction.submitExecuteSwapTx = false ∧
    (executeIcebergSwap
      { chainId := 42161, oneInchOk := true, userSigns := true, operatorKeySet := true,
        operatorBalance := 1000000000000000000, nullifierHashUsed := true }).2 =
      .error "NullifierHash already used, cannot repeat swap" ∧
    (executeSwapScript
      { chainId := 42161, deployerBalance := 1000000000000000000, configMatches := true,
        nullifierHashUsed := true, oneInchOk := true }).1.contains
        SwapAction.estimateGasExecuteSwap = false :=
  ⟨((C5_already_used_nullifier_blocks_swap.1 _ rfl).2.1),
   ((C5_already_used_nullifier_blocks_swap.1 _ rfl).2.2.2 rfl rfl rfl
     (by norm_num [operatorMinBalance]) (by decide)),
   ((C5_already_used_nullifier_blocks_swap.2 _ rfl).1)⟩

/-- C1: for passphrases containing a non-digit the deposit and swap clients
derive the same nullifier (both keccak256 of the reversed passphrase) — but
for a purely numeric passphrase they disagree: `executeDeposit` uses the
integer value of the reversed passphrase (for `"12"`, the nullifier `21`)
while `executeIcebergSwap` unconditionally keccak256-hashes the reversed
passphrase, so the swap-time nullifier hash does not correspond to the
deposit-time commitment. -/
theorem C1_deposit_swap_nullifier_derivations :
    (∀ p : String, hasNonDigit p = true →
      depositNullifierBigInt p = swapNullifier p ∧
      depositSecretBigInt p = keccakOfString p) ∧
    depositNullifierBigInt "12" = 21 ∧
    swapNullifier "12" = keccakOfString "21" ∧
    depositNullifierBigInt "12" ≠ swapNullifier "12" := by
  refine ⟨fun p h => ⟨?_, ?_⟩, by decide, ?_, by decide⟩
  · unfold depositNullifierBigInt swapNullifier
    rw [if_pos h]
  · unfold depositSecretBigInt
    rw [if_pos h]
  · exact congrArg keccakOfString (by decide)

/-- Witness for C1 at the non-numeric passphrase `"a1"`. -/
theorem C1_deposit_swap_nullifier_derivations_witness :
    depositNullifierBigInt "a1" = swapNullifier "a1" ∧
    depositSecretBigInt "a1" = keccakOfString "a1" :=
  C1_deposit_swap_nullifier_derivations.1 "a1" (by decide)

/-- C2: the primary `executeDeposit` derives `(secret, nullifier)` exactly as
the claim states (numeric passphrases read as integers, others keccak256
hashed, the nullifier from the character-reversed passphrase) and its
commitment is `H2(nullifier, secret)` — but the simulation `executeDeposit`
in the same file violates the claim: on the purely numeric passphrase `"12"`
its secret is a truncated keccak256 value, not `12`, and its commitment is a
keccak256 of the two padded values rather than a Poseidon hash. -/
theorem C2_deposit_derivation_and_commitment :
    (∀ p : String,
      depositSecretBigInt p = specSecret p ∧ depositNullifierBigInt p = specNullifier p) ∧
    (∀ (H2 : Nat → Nat → Nat) (p : String),
      depositCommitment H2 p = H2 (specNullifier p) (specSecret p)) ∧
    mockDepositSecretBN "12" ≠ 12 ∧
    mockDepositCommitment "12" =
      keccak256 (beBytes 32 (mockDepositNullifierBN "12") ++
        beBytes 32 (mockDepositSecretBN "12")) := by
  have hspec : ∀ p : String,
      depositSecretBigInt p = specSecret p ∧ depositNullifierBigInt p = specNullifier p := by
    intro p
    unfold depositSecretBigInt depositNullifierBigInt specSecret specNullifier hasNonDigit
    rw [any_not_isDigit]
    cases p.data.all Char.isDigit <;> simp
  refine ⟨hspec, fun H2 p => ?_, by decide, rfl⟩
  unfold depositCommitment
  rw [(hspec p).1, (hspec p).2]

/-- C7: the message signed before the operator swap is keccak256 of the
packed encoding of `(chainId, swapConfigId, nullifierHash, tokenOut,
depositorAddress)` — uint256, uint256, bytes32, address, address, in exactly
that order — and on in-range values that packed encoding determines the
5-tuple uniquely. -/
theorem C7_swap_authorization_message (c s n t u c' s' n' t' u' : Nat)
    (hc : c < 2 ^ 256) (hs : s < 2 ^ 256) (hn : n < 2 ^ 256)
    (ht : t < 2 ^ 160) (hu : u < 2 ^ 160)
    (hc' : c' < 2 ^ 256) (hs' : s' < 2 ^ 256) (hn' : n' < 2 ^ 256)
    (ht' : t' < 2 ^ 160) (hu' : u' < 2 ^ 160) :
    swapMessageToSign c s n t u = keccak256 (abiPacked5 c s n t u) ∧
    (abiPacked5 c s n t u = abiPacked5 c' s' n' t' u' →
      c = c' ∧ s = s' ∧ n = n' ∧ t = t' ∧ u = u') := by
  constructor
  · have hlist : solidityPack
        [(SolidityType.uint256, c), (SolidityType.uint256, s), (SolidityType.bytes32, n),
         (SolidityType.address, t), (SolidityType.address, u)] = abiPacked5 c s n t u := by
      simp only [solidityPack, solidityPackOne, abiPacked5, List.map_cons, List.map_nil,
        List.flatten_cons, List.flatten_nil, List.append_nil, List.append_assoc]
    unfold swapMessageToSign solidityKeccak256
    rw [hlist]
  · intro he
    have e32 : (2 : Nat) ^ 256 = 256 ^ 32 := by norm_num
    have e20 : (2 : Nat) ^ 160 = 256 ^ 20 := by norm_num
    rw [e32] at hc hs hn hc' hs' hn'
    rw [e20] at ht hu ht' hu'
    unfold abiPacked5 at he
    rcases List.append_inj he (by simp [beBytes_length]) with ⟨he1, hE⟩
    rcases List.append_inj he1 (by simp [beBytes_length]) with ⟨he2, hD⟩
    rcases List.append_inj he2 (by simp [beBytes_length]) with ⟨he3, hC⟩
    rcases List.append_inj he3 (by simp [beBytes_length]) with ⟨hA, hB⟩
    exact ⟨beBytes_inj hc hc' hA, beBytes_inj hs hs' hB, beBytes_inj hn hn' hC,
      beBytes_inj ht ht' hD, beBytes_inj hu hu' hE⟩

/-- Witness for C7 at the concrete tuple `(1, 2, 3, 4, 5)`. -/
theorem C7_swap_authorization_message_witness :
    swapMessageToSign 1 2 3 4 5 = keccak256 (abiPacked5 1 2 3 4 5) ∧
    (abiPacked5 1 2 3 4 5 = abiPacked5 1 2 3 4 5 →
      1 = 1 ∧ 2 = 2 ∧ 3 = 3 ∧ 4 = 4 ∧ 5 = 5) :=
  C7_swap_authorization_message 1 2 3 4 5 1 2 3 4 5
    (by norm_num) (by norm_num) (by norm_num) (by norm_num) (by norm_num)
    (by norm_num) (by norm_num) (by norm_num) (by norm_num) (by norm_num)

/-! ## Hex encoding lemmas for claim C10 -/

theorem hexCharVal_hexDigitChar : ∀ m < 16, hexCharVal (hexDigitChar m) = m := by decide

theorem isHexDigitChar_hexDigitChar : ∀ m < 16, isHexDigitChar (hexDigitChar m) = true := by
  decide

/-- A value below `16 ^ k` has at most `k` hex digits. -/
theorem hexCharsAux_length : ∀ (fuel v k : Nat), v ≤ fuel → v < 16 ^ k →
    (hexCharsAux fuel v).length ≤ k := by
  intro fuel
  induction fuel with
  | zero =>
    intro v k hv _
    have hz : v = 0 := Nat.le_zero.mp hv
    subst hz
    simp [hexCharsAux]
  | succ fuel ih =>
    intro v k hv hk
    by_cases h0 : v = 0
    · simp [hexCharsAux, h0]
    · have hkz : k ≠ 0 := by
        rintro rfl
        rw [pow_zero] at hk
        omega
      obtain ⟨k', rfl⟩ : ∃ k', k = k' + 1 := ⟨k - 1, by omega⟩
      have hvd : v / 16 ≤ fuel := by
        have h16 : v / 16 < v := Nat.div_lt_self (Nat.pos_of_ne_zero h0) (by norm_num)
        omega
      have hkd : v / 16 < 16 ^ k' := by
        rw [Nat.div_lt_iff_lt_mul (by norm_num : 0 < 16)]
        calc v < 16 ^ (k' + 1) := hk
          _ = 16 ^ k' * 16 := by ring
      simp only [hexCharsAux, if_neg h0, List.length_append, List.length_cons,
        List.length_nil]
      have := ih (v / 16) k' hvd hkd
      omega

theorem natOfHexChars_append_singleton (l : List Char) (c : Char) :
    natOfHexChars (l ++ [c]) = 16 * natOfHexChars l + hexCharVal c := by
  simp [natOfHexChars, List.foldl_append]

/-- `natOfHexChars` recovers the value expanded by `hexCharsAux`. -/
theorem natOfHexChars_hexCharsAux : ∀ (fuel v : Nat), v ≤ fuel →
    natOfHexChars (hexCharsAux fuel v) = v := by
  intro fuel
  induction fuel with
  | zero =>
    intro v hv
    have hz : v = 0 := Nat.le_zero.mp hv
    subst hz
    rfl
  | succ fuel ih =>
    intro v hv
    by_cases h0 : v = 0
    · subst h0
      rfl
    · have hvd : v / 16 ≤ fuel := by
        have h16 : v / 16 < v := Nat.div_lt_self (Nat.pos_of_ne_zero h0) (by norm_num)
        omega
      have hm : hexCharVal (hexDigitChar (v % 16)) = v % 16 :=
        hexCharVal_hexDigitChar _ (Nat.mod_lt _ (by norm_num))
      simp only [hexCharsAux, if_neg h0, natOfHexChars_append_singleton, ih _ hvd, hm]
      omega

/-- Every character produced by `hexCharsAux` is a lowercase hex digit. -/
theorem hexCharsAux_all_hex : ∀ (fuel v : Nat),
    (hexCharsAux fuel v).all isHexDigitChar = true := by
  intro fuel
  induction fuel with
  | zero => intro v; rfl
  | succ fuel ih =>
    intro v
    by_cases h0 : v = 0
    · simp [hexCharsAux, h0]
    · have hm : isHexDigitChar (hexDigitChar (v % 16)) = true :=
        isHexDigitChar_hexDigitChar _ (Nat.mod_lt _ (by norm_num))
      simp [hexCharsAux, if_neg h0, List.all_append, ih, hm]

theorem all_replicate_zero_hex (k : Nat) :
    (List.replicate k '0').all isHexDigitChar = true := by
  induction k with
  | zero => rfl
  | succ k ih =>
    simp [List.replicate_succ, List.all_cons, ih,
      show isHexDigitChar '0' = true from by decide]

/-- Leading `'0'` characters do not change the decoded value. -/
theorem natOfHexChars_replicate_zero : ∀ (k : Nat) (l : List Char),
    natOfHexChars (List.replicate k '0' ++ l) = natOfHexChars l := by
  intro k
  induction k with
  | zero => intro l; rfl
  | succ k ih =>
    intro l
    have h0 : (16 * 0 + hexCharVal '0' : Nat) = 0 := by decide
    rw [List.replicate_succ, List.cons_append]
    unfold natOfHexChars
    rw [List.foldl_cons, h0]
    exact ih l

/-- Zero-padding a hex digit list to width 64 keeps it a hex digit list of
length exactly 64 with the same decoded value. -/
theorem pad64_facts (l : List Char) (hlen : l.length ≤ 64)
    (hall : l.all isHexDigitChar = true) :
    (List.replicate (64 - l.length) '0' ++ l).length = 64 ∧
    (List.replicate (64 - l.length) '0' ++ l).all isHexDigitChar = true ∧
    natOfHexChars (List.replicate (64 - l.length) '0' ++ l) = natOfHexChars l := by
  refine ⟨?_, ?_, natOfHexChars_replicate_zero _ _⟩
  · simp only [List.length_append, List.length_replicate]
    omega
  · simp [List.all_append, hall, all_replicate_zero_hex,
      show isHexDigitChar '0' = true from by decide]

theorem replicate_append_cons (k : Nat) (c : Char) (l : List Char) :
    List.replicate k c ++ (c :: l) = List.replicate (k + 1) c ++ l := by
  rw [List.replicate_succ', List.append_assoc, List.singleton_append]

/-- Data shape of the two encoders. -/
theorem commitmentHex_data (v : Nat) :
    (commitmentHex v).data =
      '0' :: 'x' :: (List.replicate (64 - (toHexStringEthers v).data.length) '0' ++
        (toHexStringEthers v).data) := rfl

theorem bytes32Hex_data (v : Nat) :
    (bytes32Hex v).data =
      '0' :: 'x' :: (List.replicate (64 - (toHexString16 v).data.length) '0' ++
        (toHexString16 v).data) := rfl

/-- C10: for every field-element value (any `v < 2 ^ 256`; Poseidon outputs
are below the BN254 prime, which is smaller), the two bytes32 encoders used
towards the Ledger — the ethers `toHexString().slice(2).padStart(64, '0')`
form for commitments and swap nullifier hashes, and the
`toString(16).padStart(64, '0')` form for withdrawal nullifier hashes —
agree, and produce `"0x"` followed by exactly 64 lowercase hex digits whose
big-endian value is `v`. -/
theorem C10_bytes32_hex_encoding (v : Nat) (hv : v < 2 ^ 256) :
    commitmentHex v = bytes32Hex v ∧
    (commitmentHex v).length = 66 ∧
    (commitmentHex v).data.take 2 = ['0', 'x'] ∧
    ((commitmentHex v).data.drop 2).length = 64 ∧
    ((commitmentHex v).data.drop 2).all isHexDigitChar = true ∧
    natOfHexChars ((commitmentHex v).data.drop 2) = v := by
  by_cases hz : v = 0
  · subst hz
    exact ⟨by decide, by decide, by decide, by decide, by decide, by decide⟩
  · have h64 : v < 16 ^ 64 := by
      have he : (2 : Nat) ^ 256 = 16 ^ 64 := by norm_num
      rw [he] at hv
      exact hv
    have hL : (hexChars v).length ≤ 64 := hexCharsAux_length v v 64 le_rfl h64
    have hval : natOfHexChars (hexChars v) = v := natOfHexChars_hexCharsAux v v le_rfl
    have hall : (hexChars v).all isHexDigitChar = true := hexCharsAux_all_hex v v
    have hM : (toHexString16 v).data = hexChars v := by
      unfold toHexString16
      rw [if_neg hz]
    by_cases hp : (hexChars v).length % 2 = 1
    · -- odd digit count: the ethers form prepends one '0'
      have hE : (toHexStringEthers v).data = '0' :: hexChars v := by
        unfold toHexStringEthers
        rw [if_neg hz, if_pos hp]
      have hL63 : (hexChars v).length ≤ 63 := by omega
      have hallE : ('0' :: hexChars v).all isHexDigitChar = true := by
        simp [List.all_cons, hall, show isHexDigitChar '0' = true from by decide]
      have hlenE : ('0' :: hexChars v).length ≤ 64 := by
        simp only [List.length_cons]
        omega
      obtain ⟨p1, p2, p3⟩ := pad64_facts ('0' :: hexChars v) hlenE hallE
      have hvalE : natOfHexChars ('0' :: hexChars v) = v := by
        have h1 : '0' :: hexChars v = List.replicate 1 '0' ++ hexChars v := rfl
        rw [h1, natOfHexChars_replicate_zero]
        exact hval
      have hdata : (commitmentHex v).data =
          '0' :: 'x' :: (List.replicate (64 - ('0' :: hexChars v).length) '0' ++
            ('0' :: hexChars v)) := by
        rw [commitmentHex_data, hE]
      refine ⟨?_, ?_, ?_, ?_, ?_, ?_⟩
      · apply String.ext
        rw [hdata, bytes32Hex_data, hM]
        have habs : List.replicate (64 - ('0' :: hexChars v).length) '0' ++
            ('0' :: hexChars v) =
            List.replicate (64 - (hexChars v).length) '0' ++ hexChars v := by
          rw [replicate_append_cons]
          have : 64 - ('0' :: hexChars v).length + 1 = 64 - (hexChars v).length := by
            simp only [List.length_cons]
            omega
          rw [this]
        rw [habs]
      · show (commitmentHex v).data.length = 66
        rw [hdata]
        simp only [List.length_cons] at p1 ⊢
        omega
      · rw [hdata]
        rfl
      · rw [hdata]
        simpa using p1
      · rw [hdata]
        simpa using p2
      · rw [hdata]
        show natOfHexChars (List.replicate (64 - ('0' :: hexChars v).length) '0' ++
          ('0' :: hexChars v)) = v
        rw [p3, hvalE]
    · -- even digit count: both encoders give the same digit list
      have hE : (toHexStringEthers v).data = hexChars v := by
        unfold toHexStringEthers
        rw [if_neg hz, if_neg hp]
      obtain ⟨p1, p2, p3⟩ := pad64_facts (hexChars v) hL hall
      have hdata : (commitmentHex v).data =
          '0' :: 'x' :: (List.replicate (64 - (hexChars v).length) '0' ++ hexChars v) := by
        rw [commitmentHex_data, hE]
      refine ⟨?_, ?_, ?_, ?_, ?_, ?_⟩
      · apply String.ext
        rw [hdata, bytes32Hex_data, hM]
      · show (commitmentHex v).data.length = 66
        rw [hdata]
        simp only [List.length_cons, p1]
      · rw [hdata]
        rfl
      · rw [hdata]
        simpa using p1
      · rw [hdata]
        simpa using p2
      · rw [hdata]
        show natOfHexChars (List.replicate (64 - (hexChars v).length) '0' ++
          hexChars v) = v
        rw [p3, hval]

/-- Witness for C10 at the concrete field element `255`. -/
theorem C10_bytes32_hex_encoding_witness :
    commitmentHex 255 = bytes32Hex 255 ∧
    (commitmentHex 255).length = 66 ∧
    (commitmentHex 255).data.take 2 = ['0', 'x'] ∧
    ((commitmentHex 255).data.drop 2).length = 64 ∧
    ((commitmentHex 255).data.drop 2).all isHexDigitChar = true ∧
    natOfHexChars ((commitmentHex 255).data.drop 2) = 255 :=
  C10_bytes32_hex_encoding 255 (by norm_num)

end Iceberg
